import Mathlib

/-!
Verification of the metassert single-header assertion utility
(src/include/metassert.h) against its natural-language specification.

The header is a C++ template/macro library.  We embed its behaviour for
integer operands, the instantiation exercised by every example in the
specification: the operation functors generated by DEFINE_OPERATOR, the
Expression node that stores both operands and the operation, the
ExpressionBuilder chain started by the Build helper, and the METASSERT
macro that evaluates the captured expression once and, on failure, writes
one diagnostic line to standard output via AssertFail.  Standard output is
modelled as the list of strings written during one METASSERT invocation;
integer division by zero (undefined behaviour in the source language) is
modelled as an absent result.
-/

namespace metassert

/-- Operation tag: one constructor per DEFINE_OPERATOR invocation in
metassert.h lines 117 to 126, keeping the functor names from the source. -/
inductive Op where
  | Add
  | Subtract
  | Multiply
  | Divide
  | Equal
  | NotEqual
  | LessThan
  | LessOrEqual
  | GreaterThan
  | GreaterOrEqual
deriving DecidableEq, Repr

/-- Result of applying an operation functor to two int operands: the
arithmetic functors return int and the comparison functors return bool.
This is the ResultType of Expression (metassert.h line 63). -/
inductive Value where
  | int (i : Int)
  | bool (b : Bool)
deriving DecidableEq, Repr

/-- Applying the functor generated by DEFINE_OPERATOR (metassert.h line
108): its body returns the infix application of the operator token to the
two operands.  The ten instantiations are lines 117 to 126.  C++ int
division truncates toward zero; division by zero is undefined behaviour in
the source language and is modelled as an absent result. -/
def opApply : Op → Int → Int → Option Value
  | .Add, a, b => some (.int (a + b))
  | .Subtract, a, b => some (.int (a - b))
  | .Multiply, a, b => some (.int (a * b))
  | .Divide, a, b => if b = 0 then none else some (.int (a.tdiv b))
  | .Equal, a, b => some (.bool (decide (a = b)))
  | .NotEqual, a, b => some (.bool (decide (a ≠ b)))
  | .LessThan, a, b => some (.bool (decide (a < b)))
  | .LessOrEqual, a, b => some (.bool (decide (a ≤ b)))
  | .GreaterThan, a, b => some (.bool (decide (a > b)))
  | .GreaterOrEqual, a, b => some (.bool (decide (a ≥ b)))

/-- Text streamed for an operation functor (metassert.h line 109): the
stringification of the operator token passed to DEFINE_OPERATOR, per the
invocations at lines 117 to 126. -/
def opToken : Op → String
  | .Add => "+"
  | .Subtract => "-"
  | .Multiply => "*"
  | .Divide => "/"
  | .Equal => "=="
  | .NotEqual => "!="
  | .LessThan => "<"
  | .LessOrEqual => "<="
  | .GreaterThan => ">"
  | .GreaterOrEqual => ">="

/-- The six comparison operators among the ten supported ones. -/
def Op.isComparison : Op → Bool
  | .Equal => true
  | .NotEqual => true
  | .LessThan => true
  | .LessOrEqual => true
  | .GreaterThan => true
  | .GreaterOrEqual => true
  | _ => false

/-- Expression node (metassert.h lines 61 to 90) instantiated at int
operands: stores the left operand, the right operand and the operation. -/
structure Expression where
  m_lhs : Int
  m_rhs : Int
  m_op : Op
deriving DecidableEq, Repr

/-- The conversion operator of Expression (metassert.h lines 74 to 76):
return the result of applying the stored operation to the stored
operands. -/
def Expression.eval (e : Expression) : Option Value :=
  opApply e.m_op e.m_lhs e.m_rhs

/-- The stream-insertion friend of Expression (metassert.h lines 81 to
84): streams the left operand, a space, the operation token, a space and
the right operand.  It applies no operation. -/
def Expression.render (e : Expression) : String :=
  toString e.m_lhs ++ (" " ++ (opToken e.m_op ++ (" " ++ toString e.m_rhs)))

/-- ExpressionBuilder (metassert.h lines 93 to 104): wraps the expression
built so far. -/
structure ExpressionBuilder (α : Type) where
  m_lhs : α

/-- GetExpression (metassert.h line 100): return the wrapped expression. -/
def ExpressionBuilder.GetExpression {α : Type} (b : ExpressionBuilder α) : α :=
  b.m_lhs

/-- The builder operator generated by DEFINE_OPERATOR (metassert.h lines
110 to 114): combine the expression held by the builder with a right
operand into an Expression carrying the operation functor, and wrap it in
a new builder. -/
def builderOp (op : Op) (builder : ExpressionBuilder Int) (rhs : Int) :
    ExpressionBuilder Expression :=
  ⟨⟨builder.GetExpression, rhs, op⟩⟩

/-- The Build helper arrow-star operator (metassert.h lines 133 to 136):
start an ExpressionBuilder from the left operand. -/
def buildStart (lhs : Int) : ExpressionBuilder Int :=
  ⟨lhs⟩

/-- The capture performed by METASSERT line 150 on a single-operator
expression: arrow-star binds tighter than every supported operator, so the
Build helper first wraps the left operand and the generated builder
operator then forms the Expression, from which GetExpression is taken. -/
def capture (a : Int) (op : Op) (b : Int) : Expression :=
  (builderOp op (buildStart a) b).GetExpression

/-- Truth of a functor result under the negation test at metassert.h line
151: an int result is contextually converted to bool (true iff nonzero), a
bool result is used directly. -/
def Value.toBool : Value → Bool
  | .int i => decide (i ≠ 0)
  | .bool b => b

/-- AssertFail (metassert.h lines 139 to 141): the text written to
standard output, ending in the newline produced by std endl. -/
def AssertFail (msg : String) (file : String) (line : Nat) : String :=
  "Failed: " ++ (msg ++ (", in file " ++ (file ++ (" line " ++ (toString line ++ "\n")))))

/-- The stringstream contents built at metassert.h line 153: the quoted
stringification of the expression followed by its rendering in
parentheses. -/
def failMsg (exprText : String) (e : Expression) : String :=
  "\"" ++ (exprText ++ ("\"" ++ (" (" ++ (e.render ++ ")"))))

/-- The METASSERT macro (metassert.h lines 148 to 156) on a
single-operator int expression: capture the expression, evaluate it once,
and if the result is false write the AssertFail line.  The returned list
is the sequence of strings written to standard output; an absent result
models undefined behaviour during evaluation (division by zero). -/
def METASSERT (a : Int) (op : Op) (b : Int) (exprText file : String) (line : Nat) :
    Option (List String) :=
  match (capture a op b).eval with
  | none => none
  | some v =>
    if v.toBool then some []
    else some [AssertFail (failMsg exprText (capture a op b)) file line]

/-- Process state surrounding one METASSERT invocation: the standard
output written so far, the process exit code, and all remaining program
state abstracted as a value of an arbitrary type. -/
structure ProcState (σ : Type) where
  stdout : List String
  exitCode : Int
  rest : σ
deriving Repr

/-- Possible outcomes of running one statement: normal continuation, an
exception propagating out, process termination, or undefined behaviour. -/
inductive RunResult (σ : Type) where
  | ok (s : ProcState σ)
  | exn (s : ProcState σ)
  | exited (code : Int)
  | ub
deriving Repr

/-- Running the METASSERT statement from a process state: the source
(metassert.h lines 148 to 156) contains no throw, no exit and no write to
anything but standard output, so the only effect is appending the written
strings to stdout; evaluation that is undefined behaviour is the only
non-normal outcome. -/
def METASSERT_run {σ : Type} (a : Int) (op : Op) (b : Int) (exprText file : String)
    (line : Nat) (s : ProcState σ) : RunResult σ :=
  match METASSERT a op b exprText file line with
  | none => .ub
  | some out => .ok { s with stdout := s.stdout ++ out }

/-- Instrumented functor application: pairs the result with the number of
times the operation functor body (metassert.h line 108) runs, namely
once per application. -/
def opApplyCounted (op : Op) (a : Int) (b : Int) : Option Value × Nat :=
  (opApply op a b, 1)

/-- METASSERT with the functor applications counted: the negation test at
line 151 triggers the conversion operator (line 74), which applies the
functor once; the failure branch (lines 152 to 154) only streams the
stored fields and applies no functor. -/
def METASSERT_counted (a : Int) (op : Op) (b : Int) (exprText file : String)
    (line : Nat) : Option (List String) × Nat :=
  match opApplyCounted (capture a op b).m_op (capture a op b).m_lhs (capture a op b).m_rhs with
  | (none, n) => (none, n)
  | (some v, n) =>
    if v.toBool then (some [], n)
    else (some [AssertFail (failMsg exprText (capture a op b)) file line], n)

/-- Substring containment: sub occurs contiguously inside s. -/
def Contains (s sub : String) : Prop :=
  ∃ p q : String, s = p ++ (sub ++ q)

/-- Direct application of each supported infix operator to the two
operands, following the words of the specification contract: supports
binary operators plus, minus, times, divide, equal, not equal, less, less
or equal, greater, greater or equal. -/
def specDirect (op : Op) (a b : Int) : Value :=
  match op with
  | .Add => .int (a + b)
  | .Subtract => .int (a - b)
  | .Multiply => .int (a * b)
  | .Divide => .int (a.tdiv b)
  | .Equal => .bool (decide (a = b))
  | .NotEqual => .bool (decide (a ≠ b))
  | .LessThan => .bool (decide (a < b))
  | .LessOrEqual => .bool (decide (a ≤ b))
  | .GreaterThan => .bool (decide (a > b))
  | .GreaterOrEqual => .bool (decide (a ≥ b))

/-- The literal operator token of each supported operator as written in a
source expression, following the words of the specification. -/
def specLiteralToken : Op → String
  | .Add => "+"
  | .Subtract => "-"
  | .Multiply => "*"
  | .Divide => "/"
  | .Equal => "=="
  | .NotEqual => "!="
  | .LessThan => "<"
  | .LessOrEqual => "<="
  | .GreaterThan => ">"
  | .GreaterOrEqual => ">="

/-- The failure line format stated in the specification, section 6:
Failed: quote, expression source text, quote, space, open parenthesis,
left value, space, operator, space, right value, close parenthesis, comma,
in file, the file path, line, the line number, then a newline. -/
def specFailureLine (exprText : String) (a : Int) (op : Op) (b : Int)
    (file : String) (line : Nat) : String :=
  "Failed: \"" ++ (exprText ++ ("\" (" ++ (toString a ++ (" " ++ (opToken op ++
    (" " ++ (toString b ++ ("), in file " ++ (file ++ (" line " ++ (toString line ++ "\n")))))))))))

end metassert

namespace metassert

theorem contains_of_eq {s p sub q : String} (h : s = p ++ (sub ++ q)) : Contains s sub :=
  ⟨p, q, h⟩

theorem METASSERT_fail_eq (a b : Int) (op : Op) (text file : String) (line : Nat)
    (v : Value) (heval : (capture a op b).eval = some v) (hv : v.toBool = false) :
    METASSERT a op b text file line =
      some [AssertFail (failMsg text (capture a op b)) file line] := by
  simp only [METASSERT, heval, hv, Bool.false_eq_true, if_false]

theorem failLine_eq_specFailureLine (a b : Int) (op : Op) (text file : String) (line : Nat) :
    AssertFail (failMsg text (capture a op b)) file line =
      specFailureLine text a op b file line := by
  simp only [AssertFail, failMsg, specFailureLine, capture, builderOp, buildStart,
    ExpressionBuilder.GetExpression, Expression.render, String.append_assoc]
  rfl

theorem specFailureLine_contains_lhs (a b : Int) (op : Op) (text file : String) (line : Nat) :
    Contains (specFailureLine text a op b file line) (toString a) := by
  apply contains_of_eq
    (p := "Failed: \"" ++ (text ++ "\" ("))
    (q := " " ++ (opToken op ++ (" " ++ (toString b ++
      ("), in file " ++ (file ++ (" line " ++ (toString line ++ "\n"))))))))
  simp only [specFailureLine, String.append_assoc]

theorem specFailureLine_contains_rhs (a b : Int) (op : Op) (text file : String) (line : Nat) :
    Contains (specFailureLine text a op b file line) (toString b) := by
  apply contains_of_eq
    (p := "Failed: \"" ++ (text ++ ("\" (" ++ (toString a ++ (" " ++ (opToken op ++ " "))))))
    (q := "), in file " ++ (file ++ (" line " ++ (toString line ++ "\n"))))
  simp only [specFailureLine, String.append_assoc]

theorem specFailureLine_contains_line (a b : Int) (op : Op) (text file : String) (line : Nat) :
    Contains (specFailureLine text a op b file line) (toString line) := by
  apply contains_of_eq
    (p := "Failed: \"" ++ (text ++ ("\" (" ++ (toString a ++ (" " ++ (opToken op ++
      (" " ++ (toString b ++ ("), in file " ++ (file ++ " line "))))))))))
    (q := "\n")
  simp only [specFailureLine, String.append_assoc]

end metassert

namespace metassert

/-- C1: for every two int operands and every supported comparison
operator, if the captured expression evaluates to false then METASSERT
writes exactly one string to standard output, and that string contains the
rendering of both evaluated operand values and of the line number. -/
theorem C1_fail_writes_one_line_with_operands_and_line
    (a b : Int) (op : Op) (text file : String) (line : Nat) (v : Value)
    (_hcmp : op.isComparison = true)
    (heval : (capture a op b).eval = some v) (hv : v.toBool = false) :
    ∃ L : String, METASSERT a op b text file line = some [L] ∧
      Contains L (toString a) ∧ Contains L (toString b) ∧ Contains L (toString line) := by
  refine ⟨specFailureLine text a op b file line, ?_, ?_, ?_, ?_⟩
  · rw [METASSERT_fail_eq a b op text file line v heval hv,
      failLine_eq_specFailureLine]
  · exact specFailureLine_contains_lhs a b op text file line
  · exact specFailureLine_contains_rhs a b op text file line
  · exact specFailureLine_contains_line a b op text file line

/-- Witness for C1 at a concrete failing comparison: a equal 3, b equal 2,
operator less-than. -/
theorem C1_fail_writes_one_line_witness :
    Op.LessThan.isComparison = true ∧
    (capture 3 Op.LessThan 2).eval = some (Value.bool false) ∧
    (Value.bool false).toBool = false ∧
    (∃ L : String, METASSERT 3 Op.LessThan 2 "a < b" "main.cpp" 7 = some [L] ∧
      Contains L (toString (3 : Int)) ∧ Contains L (toString (2 : Int)) ∧
      Contains L (toString (7 : Nat))) :=
  ⟨rfl, by decide, rfl,
    C1_fail_writes_one_line_with_operands_and_line 3 2 Op.LessThan "a < b" "main.cpp" 7
      (Value.bool false) rfl (by decide) rfl⟩

/-- C2: for every two int operands and every supported operator, if the
captured expression evaluates to true then METASSERT writes nothing to
standard output. -/
theorem C2_success_produces_no_output
    (a b : Int) (op : Op) (text file : String) (line : Nat) (v : Value)
    (heval : (capture a op b).eval = some v) (hv : v.toBool = true) :
    METASSERT a op b text file line = some [] := by
  simp only [METASSERT, heval, hv, if_true]

/-- Witness for C2 at a concrete succeeding comparison: a equal 5, b equal
5, operator equality. -/
theorem C2_success_produces_no_output_witness :
    (capture 5 Op.Equal 5).eval = some (Value.bool true) ∧
    (Value.bool true).toBool = true ∧
    METASSERT 5 Op.Equal 5 "a == b" "main.cpp" 9 = some [] :=
  ⟨by decide, rfl,
    C2_success_produces_no_output 5 5 Op.Equal "a == b" "main.cpp" 9
      (Value.bool true) (by decide) rfl⟩

/-- C3: every failing assertion writes exactly the line stated in the
specification, section 6: Failed, a space, the quoted expression source
text, a space, an open parenthesis, the evaluated left value, the
operator, the evaluated right value, a close parenthesis, a comma, in
file, the file path, line, the line number, followed by a newline. -/
theorem C3_failure_line_has_spec_format
    (a b : Int) (op : Op) (text file : String) (line : Nat) (v : Value)
    (heval : (capture a op b).eval = some v) (hv : v.toBool = false) :
    METASSERT a op b text file line = some [specFailureLine text a op b file line] := by
  rw [METASSERT_fail_eq a b op text file line v heval hv, failLine_eq_specFailureLine]

/-- Witness for C3 at a concrete failing assertion. -/
theorem C3_failure_line_has_spec_format_witness :
    (capture 41 Op.Equal 18467).eval = some (Value.bool false) ∧
    (Value.bool false).toBool = false ∧
    METASSERT 41 Op.Equal 18467 "a == b" "main.cpp" 6 =
      some [specFailureLine "a == b" 41 Op.Equal 18467 "main.cpp" 6] :=
  ⟨by decide, rfl,
    C3_failure_line_has_spec_format 41 18467 Op.Equal "a == b" "main.cpp" 6
      (Value.bool false) (by decide) rfl⟩

/-- C4: for every two int operands and each of the ten supported
operators, the value produced by the expression-capture machinery (the
Build helper, the generated builder operator, GetExpression and the
conversion operator of Expression) equals the direct infix application of
that operator, and so does the boolean truth value; for division this
holds whenever the divisor is nonzero. -/
theorem C4_capture_equals_direct_application
    (a b : Int) (op : Op) (hdiv : op = Op.Divide → b ≠ 0) :
    (capture a op b).eval = some (specDirect op a b) ∧
    Option.map Value.toBool ((capture a op b).eval) =
      some ((specDirect op a b).toBool) := by
  have h : (capture a op b).eval = some (specDirect op a b) := by
    cases op <;>
      simp only [capture, builderOp, buildStart, ExpressionBuilder.GetExpression,
        Expression.eval, opApply, specDirect]
    rw [if_neg (hdiv rfl)]
  exact ⟨h, by rw [h]; rfl⟩

/-- Witness for C4 at a concrete division with nonzero divisor. -/
theorem C4_capture_equals_direct_application_witness :
    ((7 : Int) = 7 → (2 : Int) ≠ 0) ∧
    (capture 7 Op.Divide 2).eval = some (specDirect Op.Divide 7 2) ∧
    Option.map Value.toBool ((capture 7 Op.Divide 2).eval) =
      some ((specDirect Op.Divide 7 2).toBool) :=
  ⟨fun _ => by decide,
    (C4_capture_equals_direct_application 7 2 Op.Divide (fun _ => by decide)).1,
    (C4_capture_equals_direct_application 7 2 Op.Divide (fun _ => by decide)).2⟩

/-- C5: for each of the ten supported operators, the token rendered in the
failure diagnostic equals the literal operator token written in the source
expression. -/
theorem C5_rendered_token_is_literal_token :
    ∀ op : Op, opToken op = specLiteralToken op := by
  intro op
  cases op <;> rfl

/-- C6: the worked examples of the specification.  With a equal 41 and b
equal 18467, asserting equality at line 6 of main.cpp writes exactly the
line from the specification; with a equal 3 and b equal 2, asserting
less-than writes a line of the stated form for every file path and line
number. -/
theorem C6_worked_examples :
    METASSERT 41 Op.Equal 18467 "a == b" "main.cpp" 6 =
      some ["Failed: \"a == b\" (41 == 18467), in file main.cpp line 6\n"] ∧
    ∀ (file : String) (line : Nat),
      METASSERT 3 Op.LessThan 2 "a < b" file line =
        some ["Failed: \"a < b\" (3 < 2), in file " ++
          (file ++ (" line " ++ (toString line ++ "\n")))] :=
  ⟨rfl, fun _ _ => rfl⟩

/-- C7: on assertion failure, running the METASSERT statement continues
normally: the outcome is normal continuation (no exception, no process
termination, no undefined behaviour), the exit code and all other program
state are unchanged, and the only effect is appending the one diagnostic
line to standard output. -/
theorem C7_failure_resumes_with_only_stdout_change
    {σ : Type} (s : ProcState σ) (a b : Int) (op : Op) (text file : String)
    (line : Nat) (v : Value)
    (heval : (capture a op b).eval = some v) (hv : v.toBool = false) :
    ∃ L : String, METASSERT_run a op b text file line s =
      RunResult.ok ⟨s.stdout ++ [L], s.exitCode, s.rest⟩ := by
  refine ⟨AssertFail (failMsg text (capture a op b)) file line, ?_⟩
  simp only [METASSERT_run, METASSERT_fail_eq a b op text file line v heval hv]

/-- Witness for C7 from a concrete process state with nonempty prior
output, exit code 0 and a nonempty abstract remainder. -/
theorem C7_failure_resumes_witness :
    (capture 3 Op.LessThan 2).eval = some (Value.bool false) ∧
    (Value.bool false).toBool = false ∧
    (∃ L : String,
      METASSERT_run 3 Op.LessThan 2 "a < b" "main.cpp" 7
          (ProcState.mk ["earlier"] 0 (17 : Nat)) =
        RunResult.ok ⟨["earlier"] ++ [L], 0, (17 : Nat)⟩) :=
  ⟨by decide, rfl,
    C7_failure_resumes_with_only_stdout_change (ProcState.mk ["earlier"] 0 (17 : Nat))
      3 2 Op.LessThan "a < b" "main.cpp" 7 (Value.bool false) (by decide) rfl⟩

/-- C8: for every assertion the operation functor is applied exactly once,
whether the assertion succeeds or fails: the instrumented METASSERT counts
one application, agrees with the uninstrumented METASSERT on the output,
and the rendering of the captured expression is built from the stored
operand values and the operator token alone. -/
theorem C8_operation_applied_exactly_once
    (a b : Int) (op : Op) (text file : String) (line : Nat) :
    (METASSERT_counted a op b text file line).2 = 1 ∧
    (METASSERT_counted a op b text file line).1 = METASSERT a op b text file line ∧
    (capture a op b).render =
      toString a ++ (" " ++ (opToken op ++ (" " ++ toString b))) := by
  refine ⟨?_, ?_, rfl⟩
  · unfold METASSERT_counted opApplyCounted
    cases h : opApply (capture a op b).m_op (capture a op b).m_lhs (capture a op b).m_rhs with
    | none => rfl
    | some v => by_cases hv : v.toBool <;> simp [hv]
  · unfold METASSERT_counted opApplyCounted METASSERT Expression.eval
    cases h : opApply (capture a op b).m_op (capture a op b).m_lhs (capture a op b).m_rhs with
    | none => rfl
    | some v => by_cases hv : v.toBool <;> simp [hv]

/-- C9: the Divide functor applies division unguarded, so it is well
defined exactly under the precondition that the divisor is nonzero: for
every pair of ints with nonzero divisor, the captured Divide expression
yields the truncated quotient and the division-by-zero branch is not
taken. -/
theorem C9_divide_defined_for_nonzero_divisor
    (a b : Int) (hb : b ≠ 0) :
    (capture a Op.Divide b).eval = some (Value.int (a.tdiv b)) ∧
    (capture a Op.Divide b).eval ≠ none := by
  have h : (capture a Op.Divide b).eval = some (Value.int (a.tdiv b)) := by
    simp only [capture, builderOp, buildStart, ExpressionBuilder.GetExpression,
      Expression.eval, opApply]
    rw [if_neg hb]
  exact ⟨h, by rw [h]; exact Option.some_ne_none _⟩

/-- Witness for C9 at divisor 2. -/
theorem C9_divide_defined_witness :
    ((2 : Int) ≠ 0) ∧
    (capture 7 Op.Divide 2).eval = some (Value.int (Int.tdiv 7 2)) ∧
    (capture 7 Op.Divide 2).eval ≠ none :=
  ⟨by decide,
    (C9_divide_defined_for_nonzero_divisor 7 2 (by decide)).1,
    (C9_divide_defined_for_nonzero_divisor 7 2 (by decide)).2⟩

/-- C10: the assertion is deterministic.  Two invocations with equal
operand values, operator, expression source text, file path and line
number produce the same captured truth value and byte-for-byte identical
output, including the case of no output. -/
theorem C10_deterministic
    (a₁ a₂ b₁ b₂ : Int) (op₁ op₂ : Op) (t₁ t₂ f₁ f₂ : String) (l₁ l₂ : Nat)
    (ha : a₁ = a₂) (hop : op₁ = op₂) (hb : b₁ = b₂) (ht : t₁ = t₂)
    (hf : f₁ = f₂) (hl : l₁ = l₂) :
    Option.map Value.toBool ((capture a₁ op₁ b₁).eval) =
      Option.map Value.toBool ((capture a₂ op₂ b₂).eval) ∧
    METASSERT a₁ op₁ b₁ t₁ f₁ l₁ = METASSERT a₂ op₂ b₂ t₂ f₂ l₂ := by
  subst ha hop hb ht hf hl
  exact ⟨rfl, rfl⟩

/-- Witness for C10 at two textually separate but equal invocations. -/
theorem C10_deterministic_witness :
    (41 : Int) = 41 ∧ Op.Equal = Op.Equal ∧ (18467 : Int) = 18467 ∧
    "a == b" = "a == b" ∧ "main.cpp" = "main.cpp" ∧ (6 : Nat) = 6 ∧
    (Option.map Value.toBool ((capture 41 Op.Equal 18467).eval) =
      Option.map Value.toBool ((capture 41 Op.Equal 18467).eval) ∧
    METASSERT 41 Op.Equal 18467 "a == b" "main.cpp" 6 =
      METASSERT 41 Op.Equal 18467 "a == b" "main.cpp" 6) :=
  ⟨rfl, rfl, rfl, rfl, rfl, rfl,
    C10_deterministic 41 41 18467 18467 Op.Equal Op.Equal "a == b" "a == b"
      "main.cpp" "main.cpp" 6 6 rfl rfl rfl rfl rfl rfl⟩

end metassert
